import Mathlib

/-!
Verification of `add_user_to_apache_jira.py`.

The script performs one operation, `add_user_to_jira_role`: check the
credential read from the environment, fetch the role directory of a project
over HTTP, locate the "Contributors" role, extract its numeric identifier
from the trailing path segment of its URL, and issue one membership POST.

The embedding models the function as a pure map from the credential (an
optional environment string), a `World` describing how the two HTTP calls
would answer, and the two user inputs, to the returned boolean together with
the trace of observable events (console prints and issued HTTP requests).
-/

set_option autoImplicit false

namespace Jira

/-- Observable events of one invocation: console output and HTTP requests. -/
inductive Event where
  | print (msg : String)
  | getReq (url : String) (headers : List (String × String))
  | postReq (url : String) (body : String) (headers : List (String × String))
deriving DecidableEq, Repr

/-- Outcome of the `requests.get` on the roles endpoint together with the
result of parsing its body: `netFail` is a `RequestException` raised with no
usable response (network error, timeout); `resp` carries the HTTP status,
the reason phrase, the body text, and the result of `response.json()`
(`Except.error` when the body is not a JSON object, which `requests` raises
as a `JSONDecodeError`, a `RequestException`). -/
inductive FetchResult where
  | netFail (errMsg : String)
  | resp (status : Nat) (reason : String) (text : String)
      (parsed : Except String (List (String × String)))
deriving Repr

/-- Outcome of the `requests.post` on the membership endpoint. -/
inductive PostResult where
  | netFail (errMsg : String)
  | resp (status : Nat) (reason : String) (text : String)
deriving Repr

/-- How the remote tracker would answer the two HTTP calls of one run. -/
structure World where
  fetch : FetchResult
  post : PostResult
deriving Repr

/-- The hardcoded Jira instance URL. -/
def JIRA_URL : String := "https://issues.apache.org/jira"

/-- Python `str.split(sep)` for a one-character separator, over the character
list: splits into the (always nonempty) list of segments between separator
occurrences, keeping empty segments. -/
def splitSegs (sep : Char) : List Char → List (List Char)
  | [] => [[]]
  | c :: cs =>
    match splitSegs sep cs with
    | [] => [[c]]
    | r :: rs => if c = sep then [] :: r :: rs else (c :: r) :: rs

/-- `role_url.split(sep)[-1]` with `sep` the path separator: the segment
after the final occurrence of the separator (the whole string when the
separator does not occur). -/
def lastSegment (s : String) : String :=
  String.mk ((splitSegs (Char.ofNat 47) s.data).getLastD [])

/-- The loop of lines 52 to 56: scan the role directory in iteration order
for the first key equal to "Contributors" and extract the trailing path
segment of its URL. -/
def findContributorRoleId : List (String × String) → Option String
  | [] => none
  | (role_name, role_url) :: rest =>
    if role_name = "Contributors" then some (lastSegment role_url)
    else findContributorRoleId rest

/-- Python falsiness of the environment lookup: `None` or the empty string. -/
def tokenFalsy : Option String → Bool
  | none => true
  | some t => t = ""

/-- The request headers built at lines 31 to 34. -/
def mkHeaders (token : String) : List (String × String) :=
  [("Content-Type", "application/json"),
   ("Authorization", "Bearer " ++ token)]

/-- `str(http_err)` for the `HTTPError` raised by `raise_for_status`. -/
def httpErrorStr (status : Nat) (reason url : String) : String :=
  if status < 500 then
    toString status ++ " Client Error: " ++ reason ++ " for url: " ++ url
  else
    toString status ++ " Server Error: " ++ reason ++ " for url: " ++ url

/-- `json.dumps({"user": [user_to_add]})` for usernames containing no
characters that JSON escapes. -/
def userPayload (user_to_add : String) : String :=
  "\x7b\"user\": [\"" ++ user_to_add ++ "\"]\x7d"

/-- The two prints of lines 59 and 60, emitted when no usable
"Contributors" identifier was obtained. -/
def roleNotFoundEvents (project_key : String) (roles : List (String × String)) :
    List Event :=
  [Event.print ("Error: Could not find a role named \x27Contributors\x27 in project \x27"
      ++ project_key ++ "\x27."),
   Event.print ("Available roles: " ++ String.intercalate ", " (roles.map Prod.fst))]

/-- Shallow embedding of `add_user_to_jira_role` (lines 12 to 100): returns
the boolean result and the trace of prints and HTTP requests. -/
def add_user_to_jira_role (JIRA_API_TOKEN : Option String) (w : World)
    (user_to_add project_key : String) : Bool × List Event :=
  if tokenFalsy JIRA_API_TOKEN then
    (false,
      [Event.print "Error: JIRA_API_TOKEN environment variable is not set.",
       Event.print "Please export your Personal Access Token before running the script."])
  else
    let headers := mkHeaders (JIRA_API_TOKEN.getD "")
    let roles_url := JIRA_URL ++ "/rest/api/2/project/" ++ project_key ++ "/role"
    let ev0 : List Event :=
      [Event.print ("Fetching roles for project \x27" ++ project_key
          ++ "\x27 to find \x27Contributors\x27..."),
       Event.getReq roles_url headers]
    match w.fetch with
    | FetchResult.netFail errMsg =>
        (false, ev0 ++ [Event.print ("An error occurred: " ++ errMsg)])
    | FetchResult.resp status reason text parsed =>
      if 400 ≤ status ∧ status < 600 then
        (false, ev0
          ++ [Event.print ("HTTP error occurred: " ++ httpErrorStr status reason roles_url)]
          ++ (if status = 404 then
                [Event.print ("Error: Project with key \x27" ++ project_key
                    ++ "\x27 not found.")]
              else if status = 401 ∨ status = 403 then
                [Event.print "Error: Authentication or Permission issue. Please check your Personal Access Token and your account permissions on Jira."]
              else [])
          ++ (if text = "" then [] else [Event.print ("Jira response: " ++ text)]))
      else
        match parsed with
        | Except.error errMsg =>
            (false, ev0 ++ [Event.print ("An error occurred: " ++ errMsg)])
        | Except.ok roles =>
          if roles = [] then
            (false, ev0 ++ [Event.print "No roles found for this project."])
          else
            match findContributorRoleId roles with
            | none =>
                (false, ev0 ++ roleNotFoundEvents project_key roles)
            | some contributor_role_id =>
              let ev1 := ev0
                ++ [Event.print ("Found \x27Contributors\x27 role with ID: "
                      ++ contributor_role_id)]
              if contributor_role_id = "" then
                (false, ev1 ++ roleNotFoundEvents project_key roles)
              else
                let add_user_url := JIRA_URL ++ "/rest/api/2/project/" ++ project_key
                    ++ "/role/" ++ contributor_role_id
                let ev2 := ev1
                  ++ [Event.print ("\nAdding user \x27" ++ user_to_add
                        ++ "\x27 to \x27Contributors\x27 role (ID: " ++ contributor_role_id
                        ++ ") in project \x27" ++ project_key ++ "\x27..."),
                      Event.postReq add_user_url (userPayload user_to_add) headers]
                match w.post with
                | PostResult.netFail errMsg =>
                    (false, ev2 ++ [Event.print ("An error occurred: " ++ errMsg)])
                | PostResult.resp pstatus preason ptext =>
                  if 400 ≤ pstatus ∧ pstatus < 600 then
                    (false, ev2
                      ++ [Event.print ("HTTP error occurred: "
                            ++ httpErrorStr pstatus preason add_user_url),
                          Event.print ("Error: Failed to add user. Status Code: "
                            ++ toString pstatus),
                          Event.print "Please check the user, project key, and role ID."]
                      ++ (if ptext = "" then []
                          else [Event.print ("Jira response: " ++ ptext)]))
                  else
                    (true, ev2
                      ++ [Event.print ("Successfully added user \x27" ++ user_to_add
                            ++ "\x27 to the \x27Contributors\x27 role.")])

/-- Whether an event is an HTTP POST. -/
def Event.isPost : Event → Bool
  | Event.postReq _ _ _ => true
  | _ => false

/-- Whether an event is an HTTP request (GET or POST). -/
def Event.isNet : Event → Bool
  | Event.print _ => false
  | _ => true

/-- Number of POST requests in a trace. -/
def postCount (evs : List Event) : Nat := evs.countP Event.isPost

/-- Number of HTTP requests in a trace. -/
def netCount (evs : List Event) : Nat := evs.countP Event.isNet

theorem splitSegs_ne_nil (sep : Char) (l : List Char) : splitSegs sep l ≠ [] := by
  cases l with
  | nil => simp [splitSegs]
  | cons c cs =>
    simp only [splitSegs]
    split
    · simp
    · split <;> simp

theorem splitSegs_append_sep (sep : Char) (l : List Char) :
    splitSegs sep (l ++ [sep]) = splitSegs sep l ++ [[]] := by
  induction l with
  | nil => simp [splitSegs]
  | cons c cs ih =>
    have hstep : ∀ (x : List Char), splitSegs sep (c :: x)
        = match splitSegs sep x with
          | [] => [[c]]
          | r :: rs => if c = sep then [] :: r :: rs else (c :: r) :: rs :=
      fun _ => rfl
    obtain ⟨r, rs, hr⟩ : ∃ r rs, splitSegs sep cs = r :: rs := by
      cases hh : splitSegs sep cs with
      | nil => exact absurd hh (splitSegs_ne_nil sep cs)
      | cons r rs => exact ⟨r, rs, rfl⟩
    rw [List.cons_append, hstep, hstep, ih, hr]
    by_cases hc : c = sep <;> simp [hc]

theorem lastSegment_of_trailing_sep (s : String) (p : List Char)
    (h : s.data = p ++ [Char.ofNat 47]) : lastSegment s = "" := by
  simp [lastSegment, h, splitSegs_append_sep, List.getLastD_concat]

theorem findContributorRoleId_of_mem (roles : List (String × String)) (url : String)
    (hnd : (roles.map Prod.fst).Nodup) (hmem : ("Contributors", url) ∈ roles) :
    findContributorRoleId roles = some (lastSegment url) := by
  induction roles with
  | nil => cases hmem
  | cons hd tl ih =>
    obtain ⟨name, u⟩ := hd
    simp only [List.map_cons, List.nodup_cons] at hnd
    rcases List.mem_cons.mp hmem with heq | hmem'
    · injection heq with h1 h2
      subst h1; subst h2
      simp [findContributorRoleId]
    · by_cases hn : name = "Contributors"
      · subst hn
        exact absurd (List.mem_map_of_mem Prod.fst hmem') hnd.1
      · simp only [findContributorRoleId, if_neg hn]
        exact ih hnd.2 hmem'

theorem findContributorRoleId_of_no_match (roles : List (String × String))
    (h : ∀ p ∈ roles, p.1 ≠ "Contributors") :
    findContributorRoleId roles = none := by
  induction roles with
  | nil => rfl
  | cons hd tl ih =>
    obtain ⟨name, u⟩ := hd
    have hn : name ≠ "Contributors" := h (name, u) (List.mem_cons_self _ _)
    simp only [findContributorRoleId, if_neg hn]
    exact ih fun p hp => h p (List.mem_cons_of_mem _ hp)

/-- C1: whenever the role directory contains an entry with key exactly
"Contributors", the resolution loop yields the substring of that value after
the final path separator; in particular a directory mapping "Contributors"
to a URL ending in "/role/10030" resolves to "10030". -/
theorem C1_contributors_resolution (roles : List (String × String)) (url : String)
    (hnd : (roles.map Prod.fst).Nodup) (hmem : ("Contributors", url) ∈ roles) :
    findContributorRoleId roles = some (lastSegment url) ∧
    findContributorRoleId
      [("Contributors", "https://issues.apache.org/jira/rest/api/2/project/HDDS/role/10030")]
      = some "10030" := by
  refine ⟨findContributorRoleId_of_mem roles url hnd hmem, ?_⟩
  decide

/-- Witness for C1 at the singleton directory. -/
theorem C1_contributors_resolution_witness :
    findContributorRoleId [("Contributors", "x/10030")] = some (lastSegment "x/10030") ∧
    findContributorRoleId
      [("Contributors", "https://issues.apache.org/jira/rest/api/2/project/HDDS/role/10030")]
      = some "10030" :=
  C1_contributors_resolution [("Contributors", "x/10030")] "x/10030"
    (by decide) (by decide)

/-- C2: with the credential set and the roles fetch returning a directory
mapping "Contributors" to a URL whose trailing segment is R, the run issues
exactly one POST, addressed to base/rest/api/2/project/key/role/R, carrying
the one-user JSON payload and the bearer-token Authorization header; a 2xx
response to that POST makes the run return True. -/
theorem C2_single_authorized_write (t : String) (ht : t ≠ "")
    (roles : List (String × String)) (url R : String)
    (hnd : (roles.map Prod.fst).Nodup) (hmem : ("Contributors", url) ∈ roles)
    (hlast : lastSegment url = R) (hR : R ≠ "")
    (gs : Nat) (greason gtext : String) (hgs : ¬(400 ≤ gs ∧ gs < 600))
    (post : PostResult) (user key : String) :
    postCount (add_user_to_jira_role (some t)
        ⟨FetchResult.resp gs greason gtext (Except.ok roles), post⟩ user key).snd = 1 ∧
    Event.postReq (JIRA_URL ++ "/rest/api/2/project/" ++ key ++ "/role/" ++ R)
        (userPayload user) (mkHeaders t)
      ∈ (add_user_to_jira_role (some t)
          ⟨FetchResult.resp gs greason gtext (Except.ok roles), post⟩ user key).snd ∧
    ("Authorization", "Bearer " ++ t) ∈ mkHeaders t ∧
    (∀ ps preason ptext, post = PostResult.resp ps preason ptext → 200 ≤ ps → ps < 300 →
      (add_user_to_jira_role (some t)
          ⟨FetchResult.resp gs greason gtext (Except.ok roles), post⟩ user key).fst = true) := by
  have hrid : findContributorRoleId roles = some R :=
    hlast ▸ findContributorRoleId_of_mem roles url hnd hmem
  have hner : roles ≠ [] := by rintro rfl; cases hmem
  have htf : tokenFalsy (some t) = false := by simp [tokenFalsy, ht]
  refine ⟨?_, ?_, ?_, ?_⟩
  · simp only [add_user_to_jira_role, htf, Bool.false_eq_true, if_false, hgs, hner, hrid, hR,
      ite_false, ite_true]
    cases post with
    | netFail e => simp [postCount, Event.isPost, List.countP_cons]
    | resp ps prsn ptxt =>
      by_cases hp : 400 ≤ ps ∧ ps < 600
      · by_cases hptxt : ptxt = "" <;>
          simp [hp, hptxt, postCount, Event.isPost, List.countP_append, List.countP_cons]
      · simp [hp, postCount, Event.isPost, List.countP_append, List.countP_cons]
  · simp only [add_user_to_jira_role, htf, Bool.false_eq_true, if_false, hgs, hner, hrid, hR,
      ite_false, ite_true]
    cases post with
    | netFail e => simp
    | resp ps prsn ptxt =>
      by_cases hp : 400 ≤ ps ∧ ps < 600
      · by_cases hptxt : ptxt = "" <;> simp [hp, hptxt]
      · simp [hp]
  · simp [mkHeaders]
  · rintro ps prsn ptxt rfl h1 h2
    have hp : ¬ (400 ≤ ps ∧ ps < 600) := by omega
    simp [add_user_to_jira_role, htf, hgs, hner, hrid, hR, hp]

/-- Witness for C2 at the spec scenario: project HDDS, roles Contributors
at role/777 and Developers at role/1, user alice, POST answered 204. -/
theorem C2_single_authorized_write_witness :
    postCount (add_user_to_jira_role (some "tok")
        ⟨FetchResult.resp 200 "OK" ""
            (Except.ok [("Contributors", "role/777"), ("Developers", "role/1")]),
          PostResult.resp 204 "No Content" ""⟩ "alice" "HDDS").snd = 1 ∧
    Event.postReq (JIRA_URL ++ "/rest/api/2/project/" ++ "HDDS" ++ "/role/" ++ "777")
        (userPayload "alice") (mkHeaders "tok")
      ∈ (add_user_to_jira_role (some "tok")
          ⟨FetchResult.resp 200 "OK" ""
              (Except.ok [("Contributors", "role/777"), ("Developers", "role/1")]),
            PostResult.resp 204 "No Content" ""⟩ "alice" "HDDS").snd ∧
    ("Authorization", "Bearer " ++ "tok") ∈ mkHeaders "tok" ∧
    (∀ ps preason ptext,
      PostResult.resp 204 "No Content" "" = PostResult.resp ps preason ptext →
      200 ≤ ps → ps < 300 →
      (add_user_to_jira_role (some "tok")
          ⟨FetchResult.resp 200 "OK" ""
              (Except.ok [("Contributors", "role/777"), ("Developers", "role/1")]),
            PostResult.resp 204 "No Content" ""⟩ "alice" "HDDS").fst = true) :=
  C2_single_authorized_write "tok" (by decide)
    [("Contributors", "role/777"), ("Developers", "role/1")] "role/777" "777"
    (by decide) (by decide) (by decide) (by decide)
    200 "OK" "" (by omega) (PostResult.resp 204 "No Content" "") "alice" "HDDS"

/-- C3: a non-empty directory without a "Contributors" key makes the run
return False with no POST, printing the role-not-found report and the full
list of the directory's role names. -/
theorem C3_role_not_found (t : String) (ht : t ≠ "")
    (roles : List (String × String)) (hner : roles ≠ [])
    (hno : ∀ p ∈ roles, p.1 ≠ "Contributors")
    (gs : Nat) (greason gtext : String) (hgs : ¬(400 ≤ gs ∧ gs < 600))
    (post : PostResult) (user key : String) :
    (add_user_to_jira_role (some t)
        ⟨FetchResult.resp gs greason gtext (Except.ok roles), post⟩ user key).fst = false ∧
    postCount (add_user_to_jira_role (some t)
        ⟨FetchResult.resp gs greason gtext (Except.ok roles), post⟩ user key).snd = 0 ∧
    Event.print ("Error: Could not find a role named \x27Contributors\x27 in project \x27"
        ++ key ++ "\x27.")
      ∈ (add_user_to_jira_role (some t)
          ⟨FetchResult.resp gs greason gtext (Except.ok roles), post⟩ user key).snd ∧
    Event.print ("Available roles: " ++ String.intercalate ", " (roles.map Prod.fst))
      ∈ (add_user_to_jira_role (some t)
          ⟨FetchResult.resp gs greason gtext (Except.ok roles), post⟩ user key).snd := by
  have hrid : findContributorRoleId roles = none :=
    findContributorRoleId_of_no_match roles hno
  have htf : tokenFalsy (some t) = false := by simp [tokenFalsy, ht]
  simp [add_user_to_jira_role, htf, hgs, hner, hrid, roleNotFoundEvents,
    postCount, Event.isPost, List.countP_append, List.countP_cons]

/-- Witness for C3 at the singleton directory with only a Developers role. -/
theorem C3_role_not_found_witness :
    (add_user_to_jira_role (some "tok")
        ⟨FetchResult.resp 200 "OK" "" (Except.ok [("Developers", "role/1")]),
          PostResult.netFail "p"⟩ "alice" "HDDS").fst = false ∧
    postCount (add_user_to_jira_role (some "tok")
        ⟨FetchResult.resp 200 "OK" "" (Except.ok [("Developers", "role/1")]),
          PostResult.netFail "p"⟩ "alice" "HDDS").snd = 0 ∧
    Event.print ("Error: Could not find a role named \x27Contributors\x27 in project \x27"
        ++ "HDDS" ++ "\x27.")
      ∈ (add_user_to_jira_role (some "tok")
          ⟨FetchResult.resp 200 "OK" "" (Except.ok [("Developers", "role/1")]),
            PostResult.netFail "p"⟩ "alice" "HDDS").snd ∧
    Event.print ("Available roles: "
        ++ String.intercalate ", " (([("Developers", "role/1")]).map Prod.fst))
      ∈ (add_user_to_jira_role (some "tok")
          ⟨FetchResult.resp 200 "OK" "" (Except.ok [("Developers", "role/1")]),
            PostResult.netFail "p"⟩ "alice" "HDDS").snd :=
  C3_role_not_found "tok" (by decide) [("Developers", "role/1")] (by decide) (by decide)
    200 "OK" "" (by omega) (PostResult.netFail "p") "alice" "HDDS"

/-- C4: a successful roles fetch with an empty directory makes the run
return False with no POST, printing the no-roles report. -/
theorem C4_no_roles (t : String) (ht : t ≠ "")
    (gs : Nat) (greason gtext : String) (hgs : ¬(400 ≤ gs ∧ gs < 600))
    (post : PostResult) (user key : String) :
    (add_user_to_jira_role (some t)
        ⟨FetchResult.resp gs greason gtext (Except.ok []), post⟩ user key).fst = false ∧
    postCount (add_user_to_jira_role (some t)
        ⟨FetchResult.resp gs greason gtext (Except.ok []), post⟩ user key).snd = 0 ∧
    Event.print "No roles found for this project."
      ∈ (add_user_to_jira_role (some t)
          ⟨FetchResult.resp gs greason gtext (Except.ok []), post⟩ user key).snd := by
  have htf : tokenFalsy (some t) = false := by simp [tokenFalsy, ht]
  simp [add_user_to_jira_role, htf, hgs, postCount, Event.isPost, List.countP_cons]

/-- Witness for C4 at a 200 fetch with an empty directory. -/
theorem C4_no_roles_witness :
    (add_user_to_jira_role (some "tok")
        ⟨FetchResult.resp 200 "OK" "" (Except.ok []),
          PostResult.netFail "p"⟩ "alice" "HDDS").fst = false ∧
    postCount (add_user_to_jira_role (some "tok")
        ⟨FetchResult.resp 200 "OK" "" (Except.ok []),
          PostResult.netFail "p"⟩ "alice" "HDDS").snd = 0 ∧
    Event.print "No roles found for this project."
      ∈ (add_user_to_jira_role (some "tok")
          ⟨FetchResult.resp 200 "OK" "" (Except.ok []),
            PostResult.netFail "p"⟩ "alice" "HDDS").snd :=
  C4_no_roles "tok" (by decide) 200 "OK" "" (by omega)
    (PostResult.netFail "p") "alice" "HDDS"

/-- C5: with the credential absent, the run returns False and issues no
network request at all, whatever the remote would have answered. -/
theorem C5_missing_credential (w : World) (user key : String) :
    (add_user_to_jira_role none w user key).fst = false ∧
    netCount (add_user_to_jira_role none w user key).snd = 0 :=
  ⟨rfl, rfl⟩

/-- C6: a failing roles fetch is classified by cause: 404 prints the
project-not-found report, 401 or 403 prints the authentication report, a
network failure or a malformed body prints the generic error report; in
every case, and for every 4xx or 5xx status, the run returns False and
issues no POST. -/
theorem C6_fetch_failure_classification (t : String) (ht : t ≠ "")
    (post : PostResult) (user key : String) :
    (∀ reason text parsed,
      (add_user_to_jira_role (some t)
          ⟨FetchResult.resp 404 reason text parsed, post⟩ user key).fst = false ∧
      postCount (add_user_to_jira_role (some t)
          ⟨FetchResult.resp 404 reason text parsed, post⟩ user key).snd = 0 ∧
      Event.print ("Error: Project with key \x27" ++ key ++ "\x27 not found.")
        ∈ (add_user_to_jira_role (some t)
            ⟨FetchResult.resp 404 reason text parsed, post⟩ user key).snd) ∧
    (∀ gs reason text parsed, gs = 401 ∨ gs = 403 →
      (add_user_to_jira_role (some t)
          ⟨FetchResult.resp gs reason text parsed, post⟩ user key).fst = false ∧
      postCount (add_user_to_jira_role (some t)
          ⟨FetchResult.resp gs reason text parsed, post⟩ user key).snd = 0 ∧
      Event.print "Error: Authentication or Permission issue. Please check your Personal Access Token and your account permissions on Jira."
        ∈ (add_user_to_jira_role (some t)
            ⟨FetchResult.resp gs reason text parsed, post⟩ user key).snd) ∧
    (∀ errMsg,
      (add_user_to_jira_role (some t)
          ⟨FetchResult.netFail errMsg, post⟩ user key).fst = false ∧
      postCount (add_user_to_jira_role (some t)
          ⟨FetchResult.netFail errMsg, post⟩ user key).snd = 0 ∧
      Event.print ("An error occurred: " ++ errMsg)
        ∈ (add_user_to_jira_role (some t)
            ⟨FetchResult.netFail errMsg, post⟩ user key).snd) ∧
    (∀ gs reason text errMsg, ¬(400 ≤ gs ∧ gs < 600) →
      (add_user_to_jira_role (some t)
          ⟨FetchResult.resp gs reason text (Except.error errMsg), post⟩ user key).fst = false ∧
      postCount (add_user_to_jira_role (some t)
          ⟨FetchResult.resp gs reason text (Except.error errMsg), post⟩ user key).snd = 0 ∧
      Event.print ("An error occurred: " ++ errMsg)
        ∈ (add_user_to_jira_role (some t)
            ⟨FetchResult.resp gs reason text (Except.error errMsg), post⟩ user key).snd) ∧
    (∀ gs reason text parsed, 400 ≤ gs → gs < 600 →
      (add_user_to_jira_role (some t)
          ⟨FetchResult.resp gs reason text parsed, post⟩ user key).fst = false ∧
      postCount (add_user_to_jira_role (some t)
          ⟨FetchResult.resp gs reason text parsed, post⟩ user key).snd = 0) := by
  have htf : tokenFalsy (some t) = false := by simp [tokenFalsy, ht]
  refine ⟨?_, ?_, ?_, ?_, ?_⟩
  · intro reason text parsed
    by_cases htext : text = "" <;>
      simp [add_user_to_jira_role, htf, htext, postCount, Event.isPost,
        List.countP_append, List.countP_cons]
  · rintro gs reason text parsed (rfl | rfl) <;>
      by_cases htext : text = "" <;>
        simp [add_user_to_jira_role, htf, htext, postCount, Event.isPost,
          List.countP_append, List.countP_cons]
  · intro errMsg
    simp [add_user_to_jira_role, htf, postCount, Event.isPost, List.countP_cons]
  · intro gs reason text errMsg hgs
    simp [add_user_to_jira_role, htf, hgs, postCount, Event.isPost, List.countP_cons]
  · intro gs reason text parsed h1 h2
    have hgs : 400 ≤ gs ∧ gs < 600 := ⟨h1, h2⟩
    by_cases h404 : gs = 404
    · subst h404
      by_cases htext : text = "" <;>
        simp [add_user_to_jira_role, htf, htext, postCount, Event.isPost,
          List.countP_append, List.countP_cons]
    · by_cases hauth : gs = 401 ∨ gs = 403
      · rcases hauth with rfl | rfl <;> by_cases htext : text = "" <;>
          simp [add_user_to_jira_role, htf, htext, postCount, Event.isPost,
            List.countP_append, List.countP_cons]
      · by_cases htext : text = "" <;>
          simp [add_user_to_jira_role, htf, hgs, h404, hauth, htext, postCount, Event.isPost,
            List.countP_append, List.countP_cons]

/-- Witness for C6 with the POST side answering a network failure. -/
theorem C6_fetch_failure_classification_witness :
    (∀ reason text parsed,
      (add_user_to_jira_role (some "tok")
          ⟨FetchResult.resp 404 reason text parsed, PostResult.netFail "p"⟩ "u" "K").fst = false ∧
      postCount (add_user_to_jira_role (some "tok")
          ⟨FetchResult.resp 404 reason text parsed, PostResult.netFail "p"⟩ "u" "K").snd = 0 ∧
      Event.print ("Error: Project with key \x27" ++ "K" ++ "\x27 not found.")
        ∈ (add_user_to_jira_role (some "tok")
            ⟨FetchResult.resp 404 reason text parsed, PostResult.netFail "p"⟩ "u" "K").snd) ∧
    (∀ gs reason text parsed, gs = 401 ∨ gs = 403 →
      (add_user_to_jira_role (some "tok")
          ⟨FetchResult.resp gs reason text parsed, PostResult.netFail "p"⟩ "u" "K").fst = false ∧
      postCount (add_user_to_jira_role (some "tok")
          ⟨FetchResult.resp gs reason text parsed, PostResult.netFail "p"⟩ "u" "K").snd = 0 ∧
      Event.print "Error: Authentication or Permission issue. Please check your Personal Access Token and your account permissions on Jira."
        ∈ (add_user_to_jira_role (some "tok")
            ⟨FetchResult.resp gs reason text parsed, PostResult.netFail "p"⟩ "u" "K").snd) ∧
    (∀ errMsg,
      (add_user_to_jira_role (some "tok")
          ⟨FetchResult.netFail errMsg, PostResult.netFail "p"⟩ "u" "K").fst = false ∧
      postCount (add_user_to_jira_role (some "tok")
          ⟨FetchResult.netFail errMsg, PostResult.netFail "p"⟩ "u" "K").snd = 0 ∧
      Event.print ("An error occurred: " ++ errMsg)
        ∈ (add_user_to_jira_role (some "tok")
            ⟨FetchResult.netFail errMsg, PostResult.netFail "p"⟩ "u" "K").snd) ∧
    (∀ gs reason text errMsg, ¬(400 ≤ gs ∧ gs < 600) →
      (add_user_to_jira_role (some "tok")
          ⟨FetchResult.resp gs reason text (Except.error errMsg),
            PostResult.netFail "p"⟩ "u" "K").fst = false ∧
      postCount (add_user_to_jira_role (some "tok")
          ⟨FetchResult.resp gs reason text (Except.error errMsg),
            PostResult.netFail "p"⟩ "u" "K").snd = 0 ∧
      Event.print ("An error occurred: " ++ errMsg)
        ∈ (add_user_to_jira_role (some "tok")
            ⟨FetchResult.resp gs reason text (Except.error errMsg),
              PostResult.netFail "p"⟩ "u" "K").snd) ∧
    (∀ gs reason text parsed, 400 ≤ gs → gs < 600 →
      (add_user_to_jira_role (some "tok")
          ⟨FetchResult.resp gs reason text parsed, PostResult.netFail "p"⟩ "u" "K").fst = false ∧
      postCount (add_user_to_jira_role (some "tok")
          ⟨FetchResult.resp gs reason text parsed, PostResult.netFail "p"⟩ "u" "K").snd = 0) :=
  C6_fetch_failure_classification "tok" (by decide) (PostResult.netFail "p") "u" "K"

/-- C7 (amended): every 4xx or 5xx response to the membership POST makes the
run return False with no partial-success interpretation, and a non-empty
response body text is surfaced in a print; the 400 response carrying the
already-a-member body is reported as failure like any other 4xx or 5xx. -/
theorem C7_write_failure_4xx_5xx (t : String) (ht : t ≠ "")
    (roles : List (String × String)) (url R : String)
    (hnd : (roles.map Prod.fst).Nodup) (hmem : ("Contributors", url) ∈ roles)
    (hlast : lastSegment url = R) (hR : R ≠ "")
    (gs : Nat) (greason gtext : String) (hgs : ¬(400 ≤ gs ∧ gs < 600))
    (ps : Nat) (preason ptext : String) (hps : 400 ≤ ps ∧ ps < 600)
    (user key : String) :
    (add_user_to_jira_role (some t)
        ⟨FetchResult.resp gs greason gtext (Except.ok roles),
          PostResult.resp ps preason ptext⟩ user key).fst = false ∧
    (ptext ≠ "" →
      Event.print ("Jira response: " ++ ptext)
        ∈ (add_user_to_jira_role (some t)
            ⟨FetchResult.resp gs greason gtext (Except.ok roles),
              PostResult.resp ps preason ptext⟩ user key).snd) := by
  have hrid : findContributorRoleId roles = some R :=
    hlast ▸ findContributorRoleId_of_mem roles url hnd hmem
  have hner : roles ≠ [] := by rintro rfl; cases hmem
  have htf : tokenFalsy (some t) = false := by simp [tokenFalsy, ht]
  constructor
  · by_cases hptxt : ptext = "" <;>
      simp [add_user_to_jira_role, htf, hgs, hner, hrid, hR, hps, hptxt]
  · intro hptxt
    simp [add_user_to_jira_role, htf, hgs, hner, hrid, hR, hps, hptxt]

/-- Witness for C7 at the spec scenario: POST answered 400 with the
already-a-member body. -/
theorem C7_write_failure_4xx_5xx_witness :
    (add_user_to_jira_role (some "tok")
        ⟨FetchResult.resp 200 "OK" "" (Except.ok [("Contributors", "role/7")]),
          PostResult.resp 400 "Bad Request"
            "\x7b\"errorMessages\":[\"alice already a member\"]\x7d"⟩
        "alice" "HDDS").fst = false ∧
    ("\x7b\"errorMessages\":[\"alice already a member\"]\x7d" ≠ "" →
      Event.print ("Jira response: "
          ++ "\x7b\"errorMessages\":[\"alice already a member\"]\x7d")
        ∈ (add_user_to_jira_role (some "tok")
            ⟨FetchResult.resp 200 "OK" "" (Except.ok [("Contributors", "role/7")]),
              PostResult.resp 400 "Bad Request"
                "\x7b\"errorMessages\":[\"alice already a member\"]\x7d"⟩
            "alice" "HDDS").snd) :=
  C7_write_failure_4xx_5xx "tok" (by decide) [("Contributors", "role/7")] "role/7" "7"
    (by decide) (by decide) (by decide) (by decide)
    200 "OK" "" (by omega) 400 "Bad Request"
    "\x7b\"errorMessages\":[\"alice already a member\"]\x7d" (by omega) "alice" "HDDS"

/-- C7 counterexample: a 304 response to the membership POST is not a 2xx
response, yet the run returns True, because `raise_for_status` only raises
on statuses in [400, 600). -/
theorem C7_non_2xx_write_can_succeed :
    ¬ (200 ≤ 304 ∧ 304 < 300) ∧
    (add_user_to_jira_role (some "tok")
      ⟨FetchResult.resp 200 "OK" "" (Except.ok [("Contributors", "role/7")]),
        PostResult.resp 304 "Not Modified" ""⟩ "alice" "HDDS").fst = true := by
  exact ⟨by omega, by decide⟩

/-- C8: no execution ever issues more than one membership POST: every branch
of the function emits at most one `postReq` event. -/
theorem C8_at_most_one_post (tok : Option String) (w : World) (user key : String) :
    postCount (add_user_to_jira_role tok w user key).snd ≤ 1 := by
  obtain ⟨fetch, post⟩ := w
  cases fetch <;> cases post <;>
    simp only [add_user_to_jira_role] <;>
    repeat' split
  all_goals
    simp_all [postCount, Event.isPost, List.countP_append, List.countP_cons,
      roleNotFoundEvents]

/-- C9: when the "Contributors" value ends in the path separator, the
extracted identifier is the empty string, and the falsiness check of line 58
sends the run down the role-not-found path: False, no POST, and the
not-found report, rather than proceeding with an empty identifier. -/
theorem C9_trailing_separator_not_found (t : String) (ht : t ≠ "")
    (roles : List (String × String)) (url : String) (p : List Char)
    (hnd : (roles.map Prod.fst).Nodup) (hmem : ("Contributors", url) ∈ roles)
    (hurl : url.data = p ++ [Char.ofNat 47])
    (gs : Nat) (greason gtext : String) (hgs : ¬(400 ≤ gs ∧ gs < 600))
    (post : PostResult) (user key : String) :
    (add_user_to_jira_role (some t)
        ⟨FetchResult.resp gs greason gtext (Except.ok roles), post⟩ user key).fst = false ∧
    postCount (add_user_to_jira_role (some t)
        ⟨FetchResult.resp gs greason gtext (Except.ok roles), post⟩ user key).snd = 0 ∧
    Event.print ("Error: Could not find a role named \x27Contributors\x27 in project \x27"
        ++ key ++ "\x27.")
      ∈ (add_user_to_jira_role (some t)
          ⟨FetchResult.resp gs greason gtext (Except.ok roles), post⟩ user key).snd := by
  have hempty : lastSegment url = "" := lastSegment_of_trailing_sep url p hurl
  have hrid : findContributorRoleId roles = some "" :=
    hempty ▸ findContributorRoleId_of_mem roles url hnd hmem
  have hner : roles ≠ [] := by rintro rfl; cases hmem
  have htf : tokenFalsy (some t) = false := by simp [tokenFalsy, ht]
  simp [add_user_to_jira_role, htf, hgs, hner, hrid, roleNotFoundEvents,
    postCount, Event.isPost, List.countP_append, List.countP_cons]

/-- Witness for C9 at a directory whose Contributors URL ends in "/". -/
theorem C9_trailing_separator_not_found_witness :
    (add_user_to_jira_role (some "tok")
        ⟨FetchResult.resp 200 "OK" "" (Except.ok [("Contributors", "role/")]),
          PostResult.netFail "p"⟩ "alice" "HDDS").fst = false ∧
    postCount (add_user_to_jira_role (some "tok")
        ⟨FetchResult.resp 200 "OK" "" (Except.ok [("Contributors", "role/")]),
          PostResult.netFail "p"⟩ "alice" "HDDS").snd = 0 ∧
    Event.print ("Error: Could not find a role named \x27Contributors\x27 in project \x27"
        ++ "HDDS" ++ "\x27.")
      ∈ (add_user_to_jira_role (some "tok")
          ⟨FetchResult.resp 200 "OK" "" (Except.ok [("Contributors", "role/")]),
            PostResult.netFail "p"⟩ "alice" "HDDS").snd :=
  C9_trailing_separator_not_found "tok" (by decide) [("Contributors", "role/")] "role/"
    (String.data "role") (by decide) (by decide) (by decide)
    200 "OK" "" (by omega) (PostResult.netFail "p") "alice" "HDDS"

/-- C10: an empty credential string behaves exactly like an absent one: the
run is identical, returns False, and issues no network request. -/
theorem C10_empty_token (w : World) (user key : String) :
    add_user_to_jira_role (some "") w user key = add_user_to_jira_role none w user key ∧
    (add_user_to_jira_role (some "") w user key).fst = false ∧
    netCount (add_user_to_jira_role (some "") w user key).snd = 0 :=
  ⟨rfl, rfl, rfl⟩

end Jira
